import Mathlib

/-!
Verification development for the Geo-Analytics API error-handling and
structured-logging core (src/middleware/error_handler.py, src/utils/logger.py).

Python dictionaries are embedded as association lists of string keys and
`PyVal` values; `dictSet` models single-key assignment (`d[k] = v`) and
`dictUpdate` models `d.update(u)`, both preserving Python insertion-order
semantics.  Ambient effects of the source (the clock, `uuid.uuid4()`,
`os.getenv`, the active exception, and the correlation contextvar) are
passed to the embedded functions as explicit parameters.
-/

set_option autoImplicit false

/-- JSON-serializable Python values, as they appear in log records and
error-response bodies. -/
inductive PyVal : Type where
  | pstr : String → PyVal
  | pint : Int → PyVal
  | prat : ℚ → PyVal
  | pbool : Bool → PyVal
  | pnone : PyVal
  | plist : List PyVal → PyVal
  | pdict : List (String × PyVal) → PyVal

/-- Association-list model of a Python `dict` with string keys. -/
abbrev Dict := List (String × PyVal)

/-- Keys of a dict, in insertion order. -/
def dictKeys (d : Dict) : List String := d.map Prod.fst

/-- Lookup `d[k]`, as an option: the value of the first entry whose key is `k`. -/
def dictGet (d : Dict) (k : String) : Option PyVal :=
  (d.find? (fun p => p.1 == k)).map Prod.snd

/-- Python dict assignment `d[k] = v`: overwrite in place if the key exists,
otherwise append at the end (insertion-order semantics). -/
def dictSet (d : Dict) (k : String) (v : PyVal) : Dict :=
  if d.any (fun p => p.1 == k) then
    d.map (fun p => if p.1 == k then (k, v) else p)
  else
    d ++ [(k, v)]

/-- Python `d.update(u)`: assign every entry of `u` into `d`, in order. -/
def dictUpdate (d : Dict) (u : Dict) : Dict :=
  u.foldl (fun acc p => dictSet acc p.1 p.2) d

/-- Truthiness of an optional dict (`if details:` in Python): `none` and the
empty dict are falsy. -/
def dictTruthy (d : Option Dict) : Bool :=
  match d with
  | some l => !l.isEmpty
  | none => false

/-- Truthiness of an optional string (`if traceback_str:` in Python): `none`
and the empty string are falsy. -/
def strTruthy (s : Option String) : Bool :=
  match s with
  | some t => !(t == "")
  | none => false

/-! ## Exception taxonomy (src/middleware/error_handler.py lines 17-79) -/

/-- The data carried by every `GeoAnalyticsAPIException`: message, HTTP status
code, stable error-code string, and a structured details dict. -/
structure GeoAnalyticsAPIException : Type where
  message : String
  status_code : Nat
  error_code : String
  details : Dict

/-- The base-class constructor `GeoAnalyticsAPIException.__init__`: the
error-code argument falls back to `"INTERNAL_ERROR"` when absent or falsy
(`error_code or "INTERNAL_ERROR"`), and the details argument falls back to the
empty dict (`details or {}`). -/
def mkGeoAnalyticsAPIException (message : String) (status_code : Nat)
    (error_code : Option String) (details : Option Dict) :
    GeoAnalyticsAPIException :=
  { message := message
    status_code := status_code
    error_code :=
      match error_code with
      | some s => if s == "" then "INTERNAL_ERROR" else s
      | none => "INTERNAL_ERROR"
    details := details.getD [] }

/-- Constructor `DatasetNotFoundException(dataset_id, **kwargs)`. -/
def DatasetNotFoundException (dataset_id : String) (kwargs : Dict) :
    GeoAnalyticsAPIException :=
  mkGeoAnalyticsAPIException
    ("Dataset \x27" ++ dataset_id ++ "\x27 not found")
    404 (some "DATASET_NOT_FOUND")
    (some (dictUpdate [("dataset_id", PyVal.pstr dataset_id)] kwargs))

/-- Constructor `InvalidDataFormatException(reason, **kwargs)`. -/
def InvalidDataFormatException (reason : String) (kwargs : Dict) :
    GeoAnalyticsAPIException :=
  mkGeoAnalyticsAPIException
    ("Invalid data format: " ++ reason)
    400 (some "INVALID_DATA_FORMAT")
    (some (dictUpdate [("reason", PyVal.pstr reason)] kwargs))

/-- Constructor `AnalyticsProcessingException(operation, reason, **kwargs)`. -/
def AnalyticsProcessingException (operation reason : String) (kwargs : Dict) :
    GeoAnalyticsAPIException :=
  mkGeoAnalyticsAPIException
    ("Analytics processing failed: " ++ reason)
    500 (some "ANALYTICS_PROCESSING_ERROR")
    (some (dictUpdate
      [("operation", PyVal.pstr operation), ("reason", PyVal.pstr reason)]
      kwargs))

/-- Constructor `RateLimitExceededException(retry_after=60, **kwargs)`; the detail key is
`retry_after_seconds`. -/
def RateLimitExceededException (retry_after : Int) (kwargs : Dict) :
    GeoAnalyticsAPIException :=
  mkGeoAnalyticsAPIException
    "Rate limit exceeded. Please try again later."
    429 (some "RATE_LIMIT_EXCEEDED")
    (some (dictUpdate [("retry_after_seconds", PyVal.pint retry_after)] kwargs))

/-! ## Error response builder (src/middleware/error_handler.py lines 83-110) -/

/-- Function `build_error_response`: builds the canonical nested error body.  The
ambient clock read `datetime.utcnow().isoformat()` is passed as `now`; the
code appends `"Z"` to it.  `details` is attached only when truthy, and
`traceback` only when `include_traceback` is set and the traceback string is
truthy. -/
def build_error_response (now : String) (error_id : String) (status_code : Nat)
    (error_code : String) (message : String) (details : Option Dict)
    (include_traceback : Bool) (traceback_str : Option String) : PyVal :=
  let inner : Dict :=
    [("id", PyVal.pstr error_id),
     ("timestamp", PyVal.pstr (now ++ "Z")),
     ("status_code", PyVal.pint status_code),
     ("error_code", PyVal.pstr error_code),
     ("message", PyVal.pstr message)]
  let inner :=
    if dictTruthy details then
      dictSet inner "details" (PyVal.pdict (details.getD []))
    else inner
  let inner :=
    if include_traceback && strTruthy traceback_str then
      dictSet inner "traceback" (PyVal.pstr (traceback_str.getD ""))
    else inner
  PyVal.pdict [("error", PyVal.pdict inner)]

/-- Field `k` of the `error` object of a rendered response body. -/
def errorField (body : PyVal) (k : String) : Option PyVal :=
  match body with
  | PyVal.pdict d =>
    match dictGet d "error" with
    | some (PyVal.pdict e) => dictGet e k
    | _ => none
  | _ => none

/-! ## Exception handlers (src/middleware/error_handler.py lines 114-238) -/

/-- The exception information Python resolves for `exc_info=True` or an
explicit `(exc_type, exc_val, exc_tb)` tuple: type name, message, and the
joined traceback text. -/
structure ExcInfo : Type where
  typeName : String
  message : String
  tracebackText : String

/-- One call into the logging facility: severity, message, the
`extra_fields` dict passed under `extra`, and the exception info attached
via `exc_info` (none when no exception info is passed). -/
structure LogCall : Type where
  level : String
  msg : String
  extra_fields : Dict
  exc : Option ExcInfo

/-- A `JSONResponse`: HTTP status plus JSON content. -/
structure HTTPResponse : Type where
  status_code : Nat
  content : PyVal

/-- What a handler does: the structured log calls it makes, the raw lines it
prints to stdout as a fallback, and the response it returns. -/
structure HandlerResult : Type where
  logs : List LogCall
  prints : List String
  response : HTTPResponse

/-- Handler `custom_exception_handler(request, exc)`: handles every
`GeoAnalyticsAPIException`.  `loggerAvailable` models whether
`from utils.logger import get_logger` succeeds; on `ImportError` the handler
passes silently (no log, no fallback print).  `error_id` is the fresh
`uuid.uuid4()` and `now` the clock read inside `build_error_response`;
`activeExc` is the exception info `exc_info=True` resolves. -/
def custom_exception_handler (loggerAvailable : Bool) (path method : String)
    (error_id now : String) (activeExc : ExcInfo)
    (exc : GeoAnalyticsAPIException) : HandlerResult :=
  { logs :=
      if loggerAvailable then
        [{ level := "error"
           msg := "API Error: " ++ exc.error_code
           extra_fields :=
             [("error_id", PyVal.pstr error_id),
              ("error_code", PyVal.pstr exc.error_code),
              ("message", PyVal.pstr exc.message),
              ("details", PyVal.pdict exc.details),
              ("path", PyVal.pstr path),
              ("method", PyVal.pstr method)]
           exc := some activeExc }]
      else []
    prints := []
    response :=
      { status_code := exc.status_code
        content :=
          build_error_response now error_id exc.status_code exc.error_code
            exc.message (some exc.details) false none } }

/-- Handler `validation_exception_handler(request, exc)`: renders a 422 with the
structured `exc.errors()` list (passed here as `errors`). -/
def validation_exception_handler (error_id now : String)
    (errors : List PyVal) : HandlerResult :=
  { logs := []
    prints := []
    response :=
      { status_code := 422
        content :=
          build_error_response now error_id 422 "VALIDATION_ERROR"
            "Request validation failed"
            (some [("validation_errors", PyVal.plist errors)]) false none } }

/-- Handler `http_exception_handler(request, exc)` for `StarletteHTTPException`. -/
def http_exception_handler (error_id now : String)
    (exc_status : Nat) (exc_detail : String) : HandlerResult :=
  { logs := []
    prints := []
    response :=
      { status_code := exc_status
        content :=
          build_error_response now error_id exc_status "HTTP_ERROR" exc_detail
            none false none } }

/-- The debug toggle: `os.getenv("DEBUG", "false").lower() == "true"`.
`env` is the raw value of the `DEBUG` environment variable if present. -/
def debugEnabled (env : Option String) : Bool :=
  (env.getD "false").toLower == "true"

/-- The generic user-facing message for unclassified failures. -/
def genericInternalMessage : String :=
  "An unexpected error occurred. Please contact support with the error ID."

/-- Handler `general_exception_handler(request, exc)`: handles every unclassified
exception.  `excInfo` is the active exception (type name, `str(exc)`, and
`traceback.format_exc()` as `tb_str`); on `ImportError` of the logger the
handler prints a minimal diagnostic line instead. -/
def general_exception_handler (loggerAvailable : Bool) (path method : String)
    (error_id now : String) (excInfo : ExcInfo) (tb_str : String)
    (debugEnv : Option String) : HandlerResult :=
  let include_traceback := debugEnabled debugEnv
  { logs :=
      if loggerAvailable then
        [{ level := "critical"
           msg := "Unhandled exception: " ++ excInfo.typeName
           extra_fields :=
             [("error_id", PyVal.pstr error_id),
              ("exception_type", PyVal.pstr excInfo.typeName),
              ("exception_message", PyVal.pstr excInfo.message),
              ("path", PyVal.pstr path),
              ("method", PyVal.pstr method)]
           exc := some excInfo }]
      else []
    prints :=
      if loggerAvailable then []
      else
        ["CRITICAL ERROR [" ++ error_id ++ "]: " ++ excInfo.message
          ++ "\n" ++ tb_str]
    response :=
      { status_code := 500
        content :=
          build_error_response now error_id 500 "INTERNAL_SERVER_ERROR"
            genericInternalMessage
            (some [("error_id", PyVal.pstr error_id)])
            include_traceback
            (if include_traceback then some tb_str else none) } }

/-! ## Structured logger (src/utils/logger.py) -/

/-- The mutable attributes of a `logging.LogRecord` the formatter reads:
level name, logger name, rendered message, call-site location, optional
exception info, and the `extra_fields` attribute when the caller passed one. -/
structure LogRecord : Type where
  levelname : String
  name : String
  message : String
  module : String
  funcName : String
  lineno : Nat
  exc_info : Option ExcInfo
  extra_fields : Option Dict

/-- Formatter `JSONFormatter.format(record)`: the structured object serialized by
`json.dumps`.  `now` is the ambient `datetime.utcnow().isoformat()` read, and
`ctx_request_id` the current value of the `request_id` contextvar (default
`None`). -/
def JSONFormatter.format (now : String) (ctx_request_id : Option String)
    (record : LogRecord) : Dict :=
  let log_data : Dict :=
    [("timestamp", PyVal.pstr (now ++ "Z")),
     ("level", PyVal.pstr record.levelname),
     ("logger", PyVal.pstr record.name),
     ("message", PyVal.pstr record.message),
     ("module", PyVal.pstr record.module),
     ("function", PyVal.pstr record.funcName),
     ("line", PyVal.pint record.lineno)]
  let log_data :=
    if strTruthy ctx_request_id then
      dictSet log_data "request_id" (PyVal.pstr (ctx_request_id.getD ""))
    else log_data
  let log_data :=
    match record.exc_info with
    | some e =>
      dictSet log_data "exception"
        (PyVal.pdict
          [("type", PyVal.pstr e.typeName),
           ("message", PyVal.pstr e.message),
           ("traceback", PyVal.pstr e.tracebackText)])
    | none => log_data
  match record.extra_fields with
  | some ef => dictUpdate log_data ef
  | none => log_data

/-- Adapter hook `LoggerAdapter.process(msg, kwargs)`: the `extra_fields` dict the wrapped
logger call will carry.  `kwargs["extra"]` and `["extra_fields"]` default to
`{}` when absent, then `self.extra` (the adapter context bound at
construction) is merged in with `dict.update`, so adapter context overrides
call-site fields of the same name. -/
def LoggerAdapter.process (adapterExtra : Dict)
    (callExtraFields : Option Dict) : Dict :=
  dictUpdate (callExtraFields.getD []) adapterExtra

/-! ## Performance scope (src/utils/logger.py lines 113-144) -/

/-- Python banker's rounding (`round`) of a rational to an integer. -/
def roundHalfEven (q : ℚ) : ℤ :=
  if q - ⌊q⌋ = 1 / 2 then (if ⌊q⌋ % 2 = 0 then ⌊q⌋ else ⌊q⌋ + 1)
  else round q

/-- Python `round(x, 2)`: round to two decimal places. -/
def pyRound2 (q : ℚ) : ℚ := (roundHalfEven (q * 100) : ℚ) / 100

/-- The state a `PerformanceLogger` holds between `__enter__` and
`__exit__`: the operation name, the bound context dict, and the start-time
reading of `time.time()` (in seconds). -/
structure PerformanceLogger : Type where
  operation : String
  context : Dict
  start_time : ℚ

/-- Method `PerformanceLogger.__enter__` at clock reading `t0`: records the start
time and emits the informational starting record with the bound context. -/
def PerformanceLogger.enter (operation : String) (context : Dict)
    (t0 : ℚ) : PerformanceLogger × LogCall :=
  ({ operation := operation, context := context, start_time := t0 },
   { level := "info"
     msg := "Starting: " ++ operation
     extra_fields := context
     exc := none })

/-- Method `PerformanceLogger.__exit__` at clock reading `t1`, with `exc` the
exception propagating through the scope (none on normal exit).  Returns the
log calls it emits and the boolean it returns to the `with` machinery
(`False`: never suppress). -/
def PerformanceLogger.exitScope (s : PerformanceLogger) (t1 : ℚ)
    (exc : Option ExcInfo) : List LogCall × Bool :=
  let duration := t1 - s.start_time
  let log_data :=
    dictSet
      (dictSet s.context "duration_ms" (PyVal.prat (pyRound2 (duration * 1000))))
      "success" (PyVal.pbool exc.isNone)
  match exc with
  | some e =>
    ([{ level := "error"
        msg := "Failed: " ++ s.operation
        extra_fields := log_data
        exc := some e }], false)
  | none =>
    ([{ level := "info"
        msg := "Completed: " ++ s.operation
        extra_fields := log_data
        exc := none }], false)

/-- Scope `with PerformanceLogger(logger, operation, **context): body`, entered at
clock `t0` and exited at `t1`.  `body` is the wrapped computation, which
either produces a value or raises.  Per the context-manager protocol, a falsy
`__exit__` return re-raises the original exception; a truthy one would
suppress it and leave the block without a value. -/
def withPerformanceLogger {α : Type} (operation : String) (context : Dict)
    (t0 t1 : ℚ) (body : Except ExcInfo α) :
    List LogCall × Except ExcInfo (Option α) :=
  let (s, startLog) := PerformanceLogger.enter operation context t0
  match body with
  | Except.ok a =>
    let (logs, _) := s.exitScope t1 none
    (startLog :: logs, Except.ok (some a))
  | Except.error e =>
    let (logs, suppress) := s.exitScope t1 (some e)
    (startLog :: logs, if suppress then Except.ok none else Except.error e)

/-! ## Dict lemmas -/

theorem dictUpdate_nil (d : Dict) : dictUpdate d [] = d := rfl

theorem dictUpdate_cons (d : Dict) (p : String × PyVal) (u : Dict) :
    dictUpdate d (p :: u) = dictUpdate (dictSet d p.1 p.2) u := rfl

theorem dictKeys_cons (p : String × PyVal) (d : Dict) :
    dictKeys (p :: d) = p.1 :: dictKeys d := rfl

theorem dictGet_cons (p : String × PyVal) (d : Dict) (k : String) :
    dictGet (p :: d) k = if p.1 = k then some p.2 else dictGet d k := by
  by_cases h : p.1 = k <;> simp [dictGet, List.find?_cons, h]

theorem dictSet_cons (p : String × PyVal) (d : Dict) (k : String) (v : PyVal) :
    dictSet (p :: d) k v =
      if p.1 = k then
        (k, v) :: d.map (fun q => if q.1 == k then (k, v) else q)
      else p :: dictSet d k v := by
  by_cases h : p.1 = k
  · simp [dictSet, h]
  · cases hc : d.any (fun q => q.1 == k) <;> simp [dictSet, h, hc]

theorem dictGet_map_replace (d : Dict) (k k' : String) (v : PyVal)
    (h : k' ≠ k) :
    dictGet (d.map (fun q => if q.1 == k then (k, v) else q)) k' =
      dictGet d k' := by
  induction d with
  | nil => rfl
  | cons p rest ih =>
    simp only [List.map_cons]
    by_cases hp : p.1 = k
    · rw [show (if (p.1 == k) = true then (k, v) else p) = (k, v) by
        simp [hp]]
      rw [dictGet_cons, dictGet_cons]
      have h1 : ¬ ((k, v).1 = k') := Ne.symm h
      have h2 : ¬ (p.1 = k') := by rw [hp]; exact Ne.symm h
      rw [if_neg h1, if_neg h2]
      exact ih
    · rw [show (if (p.1 == k) = true then (k, v) else p) = p by simp [hp]]
      rw [dictGet_cons, dictGet_cons]
      by_cases hpk : p.1 = k'
      · rw [if_pos hpk, if_pos hpk]
      · rw [if_neg hpk, if_neg hpk]
        exact ih

theorem dictGet_dictSet_self (d : Dict) (k : String) (v : PyVal) :
    dictGet (dictSet d k v) k = some v := by
  induction d with
  | nil => simp [dictSet, dictGet_cons]
  | cons p rest ih =>
    rw [dictSet_cons]
    by_cases hp : p.1 = k
    · rw [if_pos hp, dictGet_cons, if_pos rfl]
    · rw [if_neg hp, dictGet_cons, if_neg hp]
      exact ih

theorem dictGet_dictSet_ne (d : Dict) (k k' : String) (v : PyVal)
    (h : k' ≠ k) :
    dictGet (dictSet d k v) k' = dictGet d k' := by
  induction d with
  | nil => simp [dictSet, dictGet_cons, Ne.symm h]
  | cons p rest ih =>
    rw [dictSet_cons]
    by_cases hp : p.1 = k
    · have h1 : ¬ ((k, v).1 = k') := Ne.symm h
      have h2 : ¬ (p.1 = k') := by rw [hp]; exact Ne.symm h
      rw [if_pos hp, dictGet_cons, dictGet_cons, if_neg h1, if_neg h2]
      exact dictGet_map_replace rest k k' v h
    · rw [if_neg hp, dictGet_cons, dictGet_cons]
      by_cases hpk : p.1 = k'
      · rw [if_pos hpk, if_pos hpk]
      · rw [if_neg hpk, if_neg hpk]
        exact ih

theorem dictGet_dictUpdate_not_mem (d u : Dict) (k : String)
    (h : k ∉ dictKeys u) :
    dictGet (dictUpdate d u) k = dictGet d k := by
  induction u generalizing d with
  | nil => rfl
  | cons p rest ih =>
    rw [dictKeys_cons] at h
    simp only [List.mem_cons, not_or] at h
    rw [dictUpdate_cons, ih _ h.2, dictGet_dictSet_ne _ _ _ _ h.1]

theorem dictGet_dictUpdate_mem (d u : Dict) (k : String)
    (hnd : (dictKeys u).Nodup) (h : k ∈ dictKeys u) :
    dictGet (dictUpdate d u) k = dictGet u k := by
  induction u generalizing d with
  | nil => cases h
  | cons p rest ih =>
    rw [dictKeys_cons] at hnd
    have hnd' := List.nodup_cons.mp hnd
    rw [dictUpdate_cons]
    by_cases hk : k = p.1
    · subst hk
      rw [dictGet_dictUpdate_not_mem _ _ _ hnd'.1, dictGet_dictSet_self,
        dictGet_cons, if_pos rfl]
    · have hm : k ∈ dictKeys rest := by
        rw [dictKeys_cons] at h
        rcases List.mem_cons.mp h with h | h
        · exact absurd h hk
        · exact h
      rw [ih _ hnd'.2 hm, dictGet_cons, if_neg (fun he => hk he.symm)]

theorem dictKeys_dictSet (d : Dict) (k : String) (v : PyVal) :
    dictKeys (dictSet d k v) =
      if k ∈ dictKeys d then dictKeys d else dictKeys d ++ [k] := by
  by_cases h : k ∈ dictKeys d
  · have hany : d.any (fun p => p.1 == k) = true := by
      rw [List.any_eq_true]
      rcases List.mem_map.mp h with ⟨q, hq, hfst⟩
      exact ⟨q, hq, by simp [hfst]⟩
    have hset : dictSet d k v =
        d.map (fun p => if p.1 == k then (k, v) else p) := by
      simp [dictSet, hany]
    rw [if_pos h, hset]
    unfold dictKeys
    rw [List.map_map]
    apply List.map_congr_left
    intro q _
    by_cases hq : q.1 = k <;> simp [hq]
  · have hany : d.any (fun p => p.1 == k) = false := by
      by_contra hc
      rw [Bool.not_eq_false, List.any_eq_true] at hc
      rcases hc with ⟨p, hp, hpk⟩
      rw [beq_iff_eq] at hpk
      exact h (List.mem_map.mpr ⟨p, hp, hpk⟩)
    have hset : dictSet d k v = d ++ [(k, v)] := by
      simp [dictSet, hany]
    rw [if_neg h, hset]
    simp [dictKeys]

theorem mem_dictKeys_dictSet (d : Dict) (k k' : String) (v : PyVal)
    (h : k ∈ dictKeys d) : k ∈ dictKeys (dictSet d k' v) := by
  rw [dictKeys_dictSet]
  by_cases hm : k' ∈ dictKeys d <;> simp [hm, h]

theorem nodup_dictKeys_dictSet (d : Dict) (k : String) (v : PyVal)
    (h : (dictKeys d).Nodup) : (dictKeys (dictSet d k v)).Nodup := by
  rw [dictKeys_dictSet]
  by_cases hm : k ∈ dictKeys d
  · simpa [hm] using h
  · simp only [if_neg hm]
    exact List.Nodup.append h (List.nodup_singleton k)
      (by simpa [List.disjoint_singleton] using hm)

theorem nodup_dictKeys_dictUpdate (d u : Dict)
    (h : (dictKeys d).Nodup) : (dictKeys (dictUpdate d u)).Nodup := by
  induction u generalizing d with
  | nil => exact h
  | cons p rest ih =>
    rw [dictUpdate_cons]
    exact ih _ (nodup_dictKeys_dictSet _ _ _ h)

theorem mem_dictKeys_dictUpdate_left (d u : Dict) (k : String)
    (h : k ∈ dictKeys d) : k ∈ dictKeys (dictUpdate d u) := by
  induction u generalizing d with
  | nil => exact h
  | cons p rest ih =>
    rw [dictUpdate_cons]
    exact ih _ (mem_dictKeys_dictSet _ _ _ _ h)

theorem mem_dictKeys_dictUpdate_elim (d u : Dict) (k : String)
    (h : k ∈ dictKeys (dictUpdate d u)) :
    k ∈ dictKeys d ∨ k ∈ dictKeys u := by
  induction u generalizing d with
  | nil => exact Or.inl h
  | cons p rest ih =>
    rw [dictUpdate_cons] at h
    rcases ih _ h with hd | hr
    · rw [dictKeys_dictSet] at hd
      by_cases hm : p.1 ∈ dictKeys d
      · rw [if_pos hm] at hd
        exact Or.inl hd
      · rw [if_neg hm] at hd
        rcases List.mem_append.mp hd with hd | hd
        · exact Or.inl hd
        · rw [dictKeys_cons]
          exact Or.inr (List.mem_cons.mpr (Or.inl (List.mem_singleton.mp hd)))
    · rw [dictKeys_cons]
      exact Or.inr (List.mem_cons.mpr (Or.inr hr))

theorem dictSet_ne_nil (d : Dict) (k : String) (v : PyVal) :
    dictSet d k v ≠ [] := by
  cases d with
  | nil => simp [dictSet]
  | cons p rest =>
    rw [dictSet_cons]
    by_cases hp : p.1 = k <;> simp [hp]

theorem dictUpdate_ne_nil (d u : Dict) (h : d ≠ []) :
    dictUpdate d u ≠ [] := by
  induction u generalizing d with
  | nil => exact h
  | cons p rest ih =>
    rw [dictUpdate_cons]
    exact ih _ (dictSet_ne_nil _ _ _)

/-! ## Builder facts -/

/-- A rendered body with the `timestamp` field of the `error` object removed:
the part of the output that must not depend on the clock. -/
def stripTimestamp (body : PyVal) : PyVal :=
  match body with
  | PyVal.pdict d =>
    PyVal.pdict (d.map (fun p =>
      match p with
      | ("error", PyVal.pdict e) =>
        ("error", PyVal.pdict (e.filter (fun q => !(q.1 == "timestamp"))))
      | q => q))
  | b => b

/-- C3: for every input, `build_error_response` produces the fixed nested
shape `{error: {id, timestamp, status_code, error_code, message, [details],
[traceback]}}`; the `details` key is present exactly when the supplied details
map is truthy (non-`None` and non-empty), and the `traceback` key exactly when
`include_traceback` is set and a truthy traceback text is supplied. -/
theorem build_error_response_shape (now error_id : String) (status_code : Nat)
    (error_code message : String) (details : Option Dict)
    (include_traceback : Bool) (traceback_str : Option String) :
    ∃ inner : Dict,
      build_error_response now error_id status_code error_code message details
          include_traceback traceback_str =
        PyVal.pdict [("error", PyVal.pdict inner)] ∧
      dictKeys inner =
        ["id", "timestamp", "status_code", "error_code", "message"] ++
          (if dictTruthy details then ["details"] else []) ++
          (if include_traceback && strTruthy traceback_str then ["traceback"]
            else []) ∧
      dictGet inner "id" = some (PyVal.pstr error_id) ∧
      dictGet inner "timestamp" = some (PyVal.pstr (now ++ "Z")) ∧
      dictGet inner "status_code" = some (PyVal.pint status_code) ∧
      dictGet inner "error_code" = some (PyVal.pstr error_code) ∧
      dictGet inner "message" = some (PyVal.pstr message) ∧
      (dictTruthy details = true →
        dictGet inner "details" = some (PyVal.pdict (details.getD []))) ∧
      ((include_traceback && strTruthy traceback_str) = true →
        dictGet inner "traceback" =
          some (PyVal.pstr (traceback_str.getD ""))) := by
  cases hd : dictTruthy details <;>
    cases ht : include_traceback && strTruthy traceback_str
  · exact ⟨[("id", PyVal.pstr error_id),
      ("timestamp", PyVal.pstr (now ++ "Z")),
      ("status_code", PyVal.pint status_code),
      ("error_code", PyVal.pstr error_code),
      ("message", PyVal.pstr message)],
      by simp [build_error_response, hd, ht],
      by simp [hd, ht, dictKeys],
      rfl, rfl, rfl, rfl, rfl, by simp [hd], by simp [ht]⟩
  · exact ⟨[("id", PyVal.pstr error_id),
      ("timestamp", PyVal.pstr (now ++ "Z")),
      ("status_code", PyVal.pint status_code),
      ("error_code", PyVal.pstr error_code),
      ("message", PyVal.pstr message),
      ("traceback", PyVal.pstr (traceback_str.getD ""))],
      by simp [build_error_response, dictSet, hd, ht],
      by simp [hd, ht, dictKeys],
      rfl, rfl, rfl, rfl, rfl, by simp [hd], fun _ => rfl⟩
  · exact ⟨[("id", PyVal.pstr error_id),
      ("timestamp", PyVal.pstr (now ++ "Z")),
      ("status_code", PyVal.pint status_code),
      ("error_code", PyVal.pstr error_code),
      ("message", PyVal.pstr message),
      ("details", PyVal.pdict (details.getD []))],
      by simp [build_error_response, dictSet, hd, ht],
      by simp [hd, ht, dictKeys],
      rfl, rfl, rfl, rfl, rfl, fun _ => rfl, by simp [ht]⟩
  · exact ⟨[("id", PyVal.pstr error_id),
      ("timestamp", PyVal.pstr (now ++ "Z")),
      ("status_code", PyVal.pint status_code),
      ("error_code", PyVal.pstr error_code),
      ("message", PyVal.pstr message),
      ("details", PyVal.pdict (details.getD [])),
      ("traceback", PyVal.pstr (traceback_str.getD ""))],
      by simp [build_error_response, dictSet, hd, ht],
      by simp [hd, ht, dictKeys],
      rfl, rfl, rfl, rfl, rfl, fun _ => rfl, fun _ => rfl⟩

/-- C9: `build_error_response` is a pure total function of its inputs and the
clock reading; for the same inputs, two calls at different clock readings
produce structurally identical output once the `timestamp` field is removed.
(The embedding is a total Lean function: no input makes it fail.) -/
theorem build_error_response_deterministic (now1 now2 error_id : String)
    (status_code : Nat) (error_code message : String) (details : Option Dict)
    (include_traceback : Bool) (traceback_str : Option String) :
    stripTimestamp
      (build_error_response now1 error_id status_code error_code message
        details include_traceback traceback_str) =
    stripTimestamp
      (build_error_response now2 error_id status_code error_code message
        details include_traceback traceback_str) := by
  cases hd : dictTruthy details <;>
    cases ht : include_traceback && strTruthy traceback_str <;>
    simp [build_error_response, dictSet, stripTimestamp, hd, ht]

/-- C5: for every request-validation failure, the handler returns HTTP 422
with `error_code` `VALIDATION_ERROR` and message `Request validation failed`,
and the rendered `details` dict carries the structured `exc.errors()` list
under `validation_errors`, unchanged. -/
theorem validation_exception_handler_spec (error_id now : String)
    (errors : List PyVal) :
    (validation_exception_handler error_id now errors).response.status_code
        = 422 ∧
    errorField (validation_exception_handler error_id now errors).response.content
        "status_code" = some (PyVal.pint 422) ∧
    errorField (validation_exception_handler error_id now errors).response.content
        "error_code" = some (PyVal.pstr "VALIDATION_ERROR") ∧
    errorField (validation_exception_handler error_id now errors).response.content
        "message" = some (PyVal.pstr "Request validation failed") ∧
    errorField (validation_exception_handler error_id now errors).response.content
        "details" =
      some (PyVal.pdict [("validation_errors", PyVal.plist errors)]) ∧
    (validation_exception_handler error_id now errors).logs = [] := by
  exact ⟨rfl, rfl, rfl, rfl, rfl, rfl⟩

/-! ## Domain-error rendering -/

/-- The rendering contract of the DomainError handler: the response's HTTP
status, rendered `status_code`, `error_code` and `details` are the error's
own. -/
def rendersOwnContract (la : Bool) (path method error_id now : String)
    (aexc : ExcInfo) (exc : GeoAnalyticsAPIException) : Prop :=
  (custom_exception_handler la path method error_id now aexc exc).response.status_code
      = exc.status_code ∧
  errorField
      (custom_exception_handler la path method error_id now aexc exc).response.content
      "status_code" = some (PyVal.pint exc.status_code) ∧
  errorField
      (custom_exception_handler la path method error_id now aexc exc).response.content
      "error_code" = some (PyVal.pstr exc.error_code) ∧
  errorField
      (custom_exception_handler la path method error_id now aexc exc).response.content
      "message" = some (PyVal.pstr exc.message) ∧
  errorField
      (custom_exception_handler la path method error_id now aexc exc).response.content
      "details" = some (PyVal.pdict exc.details)

theorem custom_handler_renders (la : Bool) (path method error_id now : String)
    (aexc : ExcInfo) (exc : GeoAnalyticsAPIException) (h : exc.details ≠ []) :
    rendersOwnContract la path method error_id now aexc exc := by
  have hd : dictTruthy (some exc.details) = true := by
    cases hE : exc.details with
    | nil => exact absurd hE h
    | cons p rest => simp [dictTruthy]
  refine ⟨rfl, ?_, ?_, ?_, ?_⟩ <;>
    simp [custom_exception_handler, build_error_response, errorField, dictSet,
      dictGet, dictGet_cons, hd]

/-- C1: each of the four DomainError variants, constructed with its documented
arguments, carries exactly the documented `status_code` and `error_code`
(`DatasetNotFound` 404/`DATASET_NOT_FOUND`, `InvalidDataFormat`
400/`INVALID_DATA_FORMAT`, `AnalyticsProcessingFailure`
500/`ANALYTICS_PROCESSING_ERROR`, `RateLimitExceeded`
429/`RATE_LIMIT_EXCEEDED`, whose Python signature defaults `retry_after` to
60); its details dict contains every documented constructor argument as a
named field (provided the variadic keyword extras do not reuse those reserved
names); and the DomainError handler renders a response whose status,
`status_code`, `error_code` and `details` are the error's own. -/
theorem domain_error_variants_spec
    (la : Bool) (path method error_id now : String) (aexc : ExcInfo)
    (dataset_id fmtReason operation procReason : String) (retry_after : Int)
    (k1 k2 k3 k4 : Dict)
    (h1 : "dataset_id" ∉ dictKeys k1)
    (h2 : "reason" ∉ dictKeys k2)
    (h3 : "operation" ∉ dictKeys k3)
    (h3r : "reason" ∉ dictKeys k3)
    (h4 : "retry_after_seconds" ∉ dictKeys k4) :
    (DatasetNotFoundException dataset_id k1).status_code = 404 ∧
    (DatasetNotFoundException dataset_id k1).error_code = "DATASET_NOT_FOUND" ∧
    dictGet (DatasetNotFoundException dataset_id k1).details "dataset_id"
        = some (PyVal.pstr dataset_id) ∧
    rendersOwnContract la path method error_id now aexc
      (DatasetNotFoundException dataset_id k1) ∧
    (InvalidDataFormatException fmtReason k2).status_code = 400 ∧
    (InvalidDataFormatException fmtReason k2).error_code
        = "INVALID_DATA_FORMAT" ∧
    dictGet (InvalidDataFormatException fmtReason k2).details "reason"
        = some (PyVal.pstr fmtReason) ∧
    rendersOwnContract la path method error_id now aexc
      (InvalidDataFormatException fmtReason k2) ∧
    (AnalyticsProcessingException operation procReason k3).status_code = 500 ∧
    (AnalyticsProcessingException operation procReason k3).error_code
        = "ANALYTICS_PROCESSING_ERROR" ∧
    dictGet (AnalyticsProcessingException operation procReason k3).details
        "operation" = some (PyVal.pstr operation) ∧
    dictGet (AnalyticsProcessingException operation procReason k3).details
        "reason" = some (PyVal.pstr procReason) ∧
    rendersOwnContract la path method error_id now aexc
      (AnalyticsProcessingException operation procReason k3) ∧
    (RateLimitExceededException retry_after k4).status_code = 429 ∧
    (RateLimitExceededException retry_after k4).error_code
        = "RATE_LIMIT_EXCEEDED" ∧
    dictGet (RateLimitExceededException retry_after k4).details
        "retry_after_seconds" = some (PyVal.pint retry_after) ∧
    rendersOwnContract la path method error_id now aexc
      (RateLimitExceededException retry_after k4) := by
  refine ⟨rfl, rfl, ?_, ?_, rfl, rfl, ?_, ?_, rfl, rfl, ?_, ?_, ?_, rfl, rfl,
    ?_, ?_⟩
  · rw [show (DatasetNotFoundException dataset_id k1).details =
        dictUpdate [("dataset_id", PyVal.pstr dataset_id)] k1 from rfl,
      dictGet_dictUpdate_not_mem _ _ _ h1, dictGet_cons, if_pos rfl]
  · exact custom_handler_renders _ _ _ _ _ _ _
      (dictUpdate_ne_nil _ _ (List.cons_ne_nil _ _))
  · rw [show (InvalidDataFormatException fmtReason k2).details =
        dictUpdate [("reason", PyVal.pstr fmtReason)] k2 from rfl,
      dictGet_dictUpdate_not_mem _ _ _ h2, dictGet_cons, if_pos rfl]
  · exact custom_handler_renders _ _ _ _ _ _ _
      (dictUpdate_ne_nil _ _ (List.cons_ne_nil _ _))
  · rw [show (AnalyticsProcessingException operation procReason k3).details =
        dictUpdate [("operation", PyVal.pstr operation),
          ("reason", PyVal.pstr procReason)] k3 from rfl,
      dictGet_dictUpdate_not_mem _ _ _ h3, dictGet_cons, if_pos rfl]
  · rw [show (AnalyticsProcessingException operation procReason k3).details =
        dictUpdate [("operation", PyVal.pstr operation),
          ("reason", PyVal.pstr procReason)] k3 from rfl,
      dictGet_dictUpdate_not_mem _ _ _ h3r, dictGet_cons,
      if_neg (by simp), dictGet_cons, if_pos rfl]
  · exact custom_handler_renders _ _ _ _ _ _ _
      (dictUpdate_ne_nil _ _ (List.cons_ne_nil _ _))
  · rw [show (RateLimitExceededException retry_after k4).details =
        dictUpdate [("retry_after_seconds", PyVal.pint retry_after)] k4
        from rfl,
      dictGet_dictUpdate_not_mem _ _ _ h4, dictGet_cons, if_pos rfl]
  · exact custom_handler_renders _ _ _ _ _ _ _
      (dictUpdate_ne_nil _ _ (List.cons_ne_nil _ _))

/-- Witness for C1 at concrete inputs (no keyword extras). -/
theorem domain_error_variants_spec_witness :
    ("dataset_id" ∉ dictKeys []) ∧ ("reason" ∉ dictKeys []) ∧
    ("operation" ∉ dictKeys []) ∧ ("retry_after_seconds" ∉ dictKeys []) ∧
    ((DatasetNotFoundException "abc123" []).status_code = 404 ∧
     (DatasetNotFoundException "abc123" []).error_code = "DATASET_NOT_FOUND" ∧
     dictGet (DatasetNotFoundException "abc123" []).details "dataset_id"
         = some (PyVal.pstr "abc123") ∧
     rendersOwnContract true "http://x/api" "GET" "eid" "2024-01-01T00:00:00"
       ⟨"DatasetNotFoundException", "m", "tb"⟩
       (DatasetNotFoundException "abc123" []) ∧
     (InvalidDataFormatException "bad csv" []).status_code = 400 ∧
     (InvalidDataFormatException "bad csv" []).error_code
         = "INVALID_DATA_FORMAT" ∧
     dictGet (InvalidDataFormatException "bad csv" []).details "reason"
         = some (PyVal.pstr "bad csv") ∧
     rendersOwnContract true "http://x/api" "GET" "eid" "2024-01-01T00:00:00"
       ⟨"DatasetNotFoundException", "m", "tb"⟩
       (InvalidDataFormatException "bad csv" []) ∧
     (AnalyticsProcessingException "agg" "oom" []).status_code = 500 ∧
     (AnalyticsProcessingException "agg" "oom" []).error_code
         = "ANALYTICS_PROCESSING_ERROR" ∧
     dictGet (AnalyticsProcessingException "agg" "oom" []).details "operation"
         = some (PyVal.pstr "agg") ∧
     dictGet (AnalyticsProcessingException "agg" "oom" []).details "reason"
         = some (PyVal.pstr "oom") ∧
     rendersOwnContract true "http://x/api" "GET" "eid" "2024-01-01T00:00:00"
       ⟨"DatasetNotFoundException", "m", "tb"⟩
       (AnalyticsProcessingException "agg" "oom" []) ∧
     (RateLimitExceededException 60 []).status_code = 429 ∧
     (RateLimitExceededException 60 []).error_code = "RATE_LIMIT_EXCEEDED" ∧
     dictGet (RateLimitExceededException 60 []).details "retry_after_seconds"
         = some (PyVal.pint 60) ∧
     rendersOwnContract true "http://x/api" "GET" "eid" "2024-01-01T00:00:00"
       ⟨"DatasetNotFoundException", "m", "tb"⟩
       (RateLimitExceededException 60 [])) :=
  ⟨by simp [dictKeys], by simp [dictKeys], by simp [dictKeys],
   by simp [dictKeys],
   domain_error_variants_spec true "http://x/api" "GET" "eid"
     "2024-01-01T00:00:00" ⟨"DatasetNotFoundException", "m", "tb"⟩
     "abc123" "bad csv" "agg" "oom" 60 [] [] [] []
     (by simp [dictKeys]) (by simp [dictKeys]) (by simp [dictKeys])
     (by simp [dictKeys]) (by simp [dictKeys])⟩

/-- C2: for every unclassified failure, the handler returns HTTP 500 with
`error_code` `INTERNAL_SERVER_ERROR`; the user-facing message is always the
fixed generic support message and never the raw exception text; the response
carries a `traceback` key exactly when the DEBUG flag is enabled (Python's
`traceback.format_exc()` is never empty, hence the `tb_str` hypothesis); and
`details` is exactly `{error_id: id}` with the top-level `error.id` equal to
it. -/
theorem general_exception_handler_spec (la : Bool)
    (path method error_id now : String) (excInfo : ExcInfo) (tb_str : String)
    (debugEnv : Option String) (htb : tb_str ≠ "") :
    (general_exception_handler la path method error_id now excInfo tb_str
        debugEnv).response.status_code = 500 ∧
    errorField (general_exception_handler la path method error_id now excInfo
        tb_str debugEnv).response.content "status_code"
      = some (PyVal.pint 500) ∧
    errorField (general_exception_handler la path method error_id now excInfo
        tb_str debugEnv).response.content "error_code"
      = some (PyVal.pstr "INTERNAL_SERVER_ERROR") ∧
    errorField (general_exception_handler la path method error_id now excInfo
        tb_str debugEnv).response.content "message"
      = some (PyVal.pstr genericInternalMessage) ∧
    (excInfo.message ≠ genericInternalMessage →
      errorField (general_exception_handler la path method error_id now
          excInfo tb_str debugEnv).response.content "message"
        ≠ some (PyVal.pstr excInfo.message)) ∧
    (errorField (general_exception_handler la path method error_id now excInfo
        tb_str debugEnv).response.content "traceback").isSome
      = debugEnabled debugEnv ∧
    (debugEnabled debugEnv = true →
      errorField (general_exception_handler la path method error_id now
          excInfo tb_str debugEnv).response.content "traceback"
        = some (PyVal.pstr tb_str)) ∧
    errorField (general_exception_handler la path method error_id now excInfo
        tb_str debugEnv).response.content "details"
      = some (PyVal.pdict [("error_id", PyVal.pstr error_id)]) ∧
    errorField (general_exception_handler la path method error_id now excInfo
        tb_str debugEnv).response.content "id"
      = some (PyVal.pstr error_id) := by
  have hst : strTruthy (some tb_str) = true := by simp [strTruthy, htb]
  cases hdbg : debugEnabled debugEnv <;>
    refine ⟨rfl, ?_, ?_, ?_, fun hne => ?_, ?_, ?_, ?_, ?_⟩ <;>
    simp [general_exception_handler, build_error_response, errorField,
      dictSet, dictGet, dictGet_cons, dictTruthy, hdbg, hst,
      genericInternalMessage] <;>
    simp [genericInternalMessage] at hne ⊢ <;>
    exact fun h => hne h.symm

/-- Witness for C2 at concrete inputs. -/
theorem general_exception_handler_spec_witness :
    (("Traceback (most recent call last)" : String) ≠ "") ∧
    ((general_exception_handler true "http://x/api" "GET" "eid"
        "2024-01-01T00:00:00" ⟨"ValueError", "boom", "tb"⟩
        "Traceback (most recent call last)" (some "true")).response.status_code
      = 500 ∧
    errorField (general_exception_handler true "http://x/api" "GET" "eid"
        "2024-01-01T00:00:00" ⟨"ValueError", "boom", "tb"⟩
        "Traceback (most recent call last)" (some "true")).response.content
        "status_code" = some (PyVal.pint 500) ∧
    errorField (general_exception_handler true "http://x/api" "GET" "eid"
        "2024-01-01T00:00:00" ⟨"ValueError", "boom", "tb"⟩
        "Traceback (most recent call last)" (some "true")).response.content
        "error_code" = some (PyVal.pstr "INTERNAL_SERVER_ERROR") ∧
    errorField (general_exception_handler true "http://x/api" "GET" "eid"
        "2024-01-01T00:00:00" ⟨"ValueError", "boom", "tb"⟩
        "Traceback (most recent call last)" (some "true")).response.content
        "message" = some (PyVal.pstr genericInternalMessage) ∧
    ((⟨"ValueError", "boom", "tb"⟩ : ExcInfo).message
        ≠ genericInternalMessage →
      errorField (general_exception_handler true "http://x/api" "GET" "eid"
          "2024-01-01T00:00:00" ⟨"ValueError", "boom", "tb"⟩
          "Traceback (most recent call last)" (some "true")).response.content
          "message" ≠ some (PyVal.pstr
            (⟨"ValueError", "boom", "tb"⟩ : ExcInfo).message)) ∧
    (errorField (general_exception_handler true "http://x/api" "GET" "eid"
        "2024-01-01T00:00:00" ⟨"ValueError", "boom", "tb"⟩
        "Traceback (most recent call last)" (some "true")).response.content
        "traceback").isSome = debugEnabled (some "true") ∧
    (debugEnabled (some "true") = true →
      errorField (general_exception_handler true "http://x/api" "GET" "eid"
          "2024-01-01T00:00:00" ⟨"ValueError", "boom", "tb"⟩
          "Traceback (most recent call last)" (some "true")).response.content
          "traceback"
        = some (PyVal.pstr "Traceback (most recent call last)")) ∧
    errorField (general_exception_handler true "http://x/api" "GET" "eid"
        "2024-01-01T00:00:00" ⟨"ValueError", "boom", "tb"⟩
        "Traceback (most recent call last)" (some "true")).response.content
        "details" = some (PyVal.pdict [("error_id", PyVal.pstr "eid")]) ∧
    errorField (general_exception_handler true "http://x/api" "GET" "eid"
        "2024-01-01T00:00:00" ⟨"ValueError", "boom", "tb"⟩
        "Traceback (most recent call last)" (some "true")).response.content
        "id" = some (PyVal.pstr "eid")) :=
  ⟨by decide,
   general_exception_handler_spec true "http://x/api" "GET" "eid"
     "2024-01-01T00:00:00" ⟨"ValueError", "boom", "tb"⟩
     "Traceback (most recent call last)" (some "true") (by decide)⟩

/-- C10: when the structured logger import fails, the DomainError handler
makes no log call and writes no fallback diagnostic line, yet returns exactly
the response it returns when logging succeeds; the unclassified-failure
handler, in contrast, prints exactly one fallback diagnostic line when the
logger import fails. -/
theorem custom_handler_silent_without_logger
    (path method error_id now : String) (aexc : ExcInfo)
    (exc : GeoAnalyticsAPIException)
    (gpath gmethod gerror_id gnow : String) (gexc : ExcInfo) (gtb : String)
    (gdebug : Option String) :
    (custom_exception_handler false path method error_id now aexc exc).logs
        = [] ∧
    (custom_exception_handler false path method error_id now aexc exc).prints
        = [] ∧
    (custom_exception_handler false path method error_id now aexc exc).response
        = (custom_exception_handler true path method error_id now aexc
            exc).response ∧
    (general_exception_handler false gpath gmethod gerror_id gnow gexc gtb
        gdebug).prints.length = 1 :=
  ⟨rfl, rfl, rfl, rfl⟩

/-! ## Adapter and formatter merge precedence -/

theorem mem_dictKeys_dictSet_self (d : Dict) (k : String) (v : PyVal) :
    k ∈ dictKeys (dictSet d k v) := by
  rw [dictKeys_dictSet]
  by_cases hm : k ∈ dictKeys d <;> simp [hm]

theorem mem_dictKeys_dictUpdate_right (d u : Dict) (k : String)
    (h : k ∈ dictKeys u) : k ∈ dictKeys (dictUpdate d u) := by
  induction u generalizing d with
  | nil => cases h
  | cons p rest ih =>
    rw [dictUpdate_cons]
    rw [dictKeys_cons] at h
    rcases List.mem_cons.mp h with h | h
    · subst h
      exact mem_dictKeys_dictUpdate_left _ _ _
        (mem_dictKeys_dictSet_self _ _ _)
    · exact ih _ h

/-- C4: (1) in the extra-fields map produced by `LoggerAdapter.process`, any
key bound in the adapter context carries the adapter's value (adapter context
is merged after call-site fields, last-writer-wins), (2) any other key keeps
its call-site value, (3) the formatter merges the record's extra-fields map
into the output last, so any key of that map — including one shared with a
default record field — carries the extra-fields value, and (4) end-to-end, an
adapter-bound key wins in the formatted record. -/
theorem logger_merge_precedence_spec (adapterExtra : Dict)
    (callEF : Option Dict) (ef : Dict) (now : String) (rid : Option String)
    (rec : LogRecord) (k1 k2 k3 : String)
    (hndA : (dictKeys adapterExtra).Nodup)
    (hk1 : k1 ∈ dictKeys adapterExtra)
    (hk2 : k2 ∉ dictKeys adapterExtra)
    (hndE : (dictKeys ef).Nodup)
    (hk3 : k3 ∈ dictKeys ef)
    (hndC : (dictKeys (callEF.getD [])).Nodup) :
    dictGet (LoggerAdapter.process adapterExtra callEF) k1
        = dictGet adapterExtra k1 ∧
    dictGet (LoggerAdapter.process adapterExtra callEF) k2
        = dictGet (callEF.getD []) k2 ∧
    dictGet
        (JSONFormatter.format now rid { rec with extra_fields := some ef }) k3
        = dictGet ef k3 ∧
    dictGet
        (JSONFormatter.format now rid
          { rec with extra_fields := some (LoggerAdapter.process adapterExtra callEF) }) k1
        = dictGet adapterExtra k1 := by
  refine ⟨?_, ?_, ?_, ?_⟩
  · exact dictGet_dictUpdate_mem _ _ _ hndA hk1
  · exact dictGet_dictUpdate_not_mem _ _ _ hk2
  · simp only [JSONFormatter.format]
    exact dictGet_dictUpdate_mem _ _ _ hndE hk3
  · simp only [JSONFormatter.format]
    have hndP : (dictKeys (LoggerAdapter.process adapterExtra callEF)).Nodup :=
      nodup_dictKeys_dictUpdate _ _ hndC
    have hmemP : k1 ∈ dictKeys (LoggerAdapter.process adapterExtra callEF) :=
      mem_dictKeys_dictUpdate_right _ _ _ hk1
    rw [dictGet_dictUpdate_mem _ _ _ hndP hmemP]
    exact dictGet_dictUpdate_mem _ _ _ hndA hk1

/-- Witness for C4: adapter context `request_context` overrides the call-site
value of the same key, `other` survives, and an extra-fields `timestamp`
overrides the default record field in the formatted output. -/
theorem logger_merge_precedence_spec_witness :
    ((dictKeys [("request_context", PyVal.pstr "ctx"),
        ("component", PyVal.pstr "api")]).Nodup ∧
     "request_context" ∈ dictKeys [("request_context", PyVal.pstr "ctx"),
        ("component", PyVal.pstr "api")] ∧
     "other" ∉ dictKeys [("request_context", PyVal.pstr "ctx"),
        ("component", PyVal.pstr "api")] ∧
     (dictKeys [("timestamp", PyVal.pstr "override")]).Nodup ∧
     "timestamp" ∈ dictKeys [("timestamp", PyVal.pstr "override")] ∧
     (dictKeys ((some [("request_context", PyVal.pstr "call"),
        ("other", PyVal.pint 1)] : Option Dict).getD [])).Nodup) ∧
    (dictGet
        (LoggerAdapter.process
          [("request_context", PyVal.pstr "ctx"),
           ("component", PyVal.pstr "api")]
          (some [("request_context", PyVal.pstr "call"),
           ("other", PyVal.pint 1)]))
        "request_context"
      = dictGet [("request_context", PyVal.pstr "ctx"),
          ("component", PyVal.pstr "api")] "request_context" ∧
     dictGet
        (LoggerAdapter.process
          [("request_context", PyVal.pstr "ctx"),
           ("component", PyVal.pstr "api")]
          (some [("request_context", PyVal.pstr "call"),
           ("other", PyVal.pint 1)]))
        "other"
      = dictGet ((some [("request_context", PyVal.pstr "call"),
          ("other", PyVal.pint 1)] : Option Dict).getD []) "other" ∧
     dictGet
        (JSONFormatter.format "2024-01-01T00:00:00" none
          { levelname := "INFO", name := "geo-analytics-api", message := "m"
            module := "mod", funcName := "f", lineno := 3, exc_info := none
            extra_fields := some [("timestamp", PyVal.pstr "override")] })
        "timestamp"
      = dictGet [("timestamp", PyVal.pstr "override")] "timestamp" ∧
     dictGet
        (JSONFormatter.format "2024-01-01T00:00:00" none
          { levelname := "INFO", name := "geo-analytics-api", message := "m"
            module := "mod", funcName := "f", lineno := 3, exc_info := none
            extra_fields :=
              some (LoggerAdapter.process
                [("request_context", PyVal.pstr "ctx"),
                 ("component", PyVal.pstr "api")]
                (some [("request_context", PyVal.pstr "call"),
                 ("other", PyVal.pint 1)])) })
        "request_context"
      = dictGet [("request_context", PyVal.pstr "ctx"),
          ("component", PyVal.pstr "api")] "request_context") :=
  ⟨⟨by simp [dictKeys], by simp [dictKeys], by simp [dictKeys],
    by simp [dictKeys], by simp [dictKeys], by simp [dictKeys]⟩,
   logger_merge_precedence_spec
     [("request_context", PyVal.pstr "ctx"), ("component", PyVal.pstr "api")]
     (some [("request_context", PyVal.pstr "call"), ("other", PyVal.pint 1)])
     [("timestamp", PyVal.pstr "override")]
     "2024-01-01T00:00:00" none
     { levelname := "INFO", name := "geo-analytics-api", message := "m"
       module := "mod", funcName := "f", lineno := 3, exc_info := none
       extra_fields := none }
     "request_context" "other" "timestamp"
     (by simp [dictKeys]) (by simp [dictKeys]) (by simp [dictKeys])
     (by simp [dictKeys]) (by simp [dictKeys]) (by simp [dictKeys])⟩

/-! ## Performance scope -/

theorem roundHalfEven_nonneg (q : ℚ) (h : 0 ≤ q) : 0 ≤ roundHalfEven q := by
  unfold roundHalfEven
  by_cases hf : q - ⌊q⌋ = 1 / 2
  · rw [if_pos hf]
    have h0 : (0 : ℤ) ≤ ⌊q⌋ := Int.floor_nonneg.mpr h
    by_cases he : ⌊q⌋ % 2 = 0
    · rw [if_pos he]; exact h0
    · rw [if_neg he]; omega
  · rw [if_neg hf]
    rw [round_eq]
    refine Int.floor_nonneg.mpr ?_
    linarith

theorem pyRound2_nonneg (q : ℚ) (h : 0 ≤ q) : 0 ≤ pyRound2 q := by
  unfold pyRound2
  have hr := roundHalfEven_nonneg (q * 100) (by positivity)
  exact div_nonneg (by exact_mod_cast hr) (by norm_num)

/-- C6: when the wrapped operation raises, the scope emits exactly one
failure record on exit — severity `error`, `success=false`, a `duration_ms`
field that is nonnegative whenever the exit clock reading is not before the
entry reading, and the full exception info attached — `__exit__` returns
`False`, and the original exception propagates unchanged out of the `with`
block. -/
theorem performance_scope_failure_spec (α : Type) (operation : String)
    (context : Dict) (t0 t1 : ℚ) (e : ExcInfo) (h : t0 ≤ t1) :
    ∃ failRec : LogCall,
      PerformanceLogger.exitScope ⟨operation, context, t0⟩ t1 (some e)
          = ([failRec], false) ∧
      failRec.level = "error" ∧
      failRec.msg = "Failed: " ++ operation ∧
      dictGet failRec.extra_fields "success" = some (PyVal.pbool false) ∧
      (∃ q : ℚ, dictGet failRec.extra_fields "duration_ms"
          = some (PyVal.prat q) ∧ 0 ≤ q) ∧
      failRec.exc = some e ∧
      (withPerformanceLogger operation context t0 t1
          (Except.error e : Except ExcInfo α)).2 = Except.error e ∧
      (withPerformanceLogger operation context t0 t1
          (Except.error e : Except ExcInfo α)).1
        = ({ level := "info", msg := "Starting: " ++ operation,
             extra_fields := context, exc := none } : LogCall) :: [failRec] := by
  refine ⟨{ level := "error"
            msg := "Failed: " ++ operation
            extra_fields := dictSet (dictSet context "duration_ms" (PyVal.prat (pyRound2 ((t1 - t0) * 1000)))) "success" (PyVal.pbool false)
            exc := some e }, rfl, rfl, rfl, ?_, ?_, rfl, rfl, rfl⟩
  · exact dictGet_dictSet_self _ _ _
  · refine ⟨pyRound2 ((t1 - t0) * 1000), ?_, ?_⟩
    · rw [dictGet_dictSet_ne _ _ _ _ (by simp), dictGet_dictSet_self]
    · exact pyRound2_nonneg _ (by nlinarith)

/-- Witness for C6 at concrete clock readings 0 and 1 seconds. -/
theorem performance_scope_failure_spec_witness :
    ((0 : ℚ) ≤ 1) ∧
    (∃ failRec : LogCall,
      PerformanceLogger.exitScope ⟨"agg", [("dataset", PyVal.pstr "d1")], 0⟩ 1
          (some ⟨"ValueError", "boom", "tb"⟩)
          = ([failRec], false) ∧
      failRec.level = "error" ∧
      failRec.msg = "Failed: " ++ "agg" ∧
      dictGet failRec.extra_fields "success" = some (PyVal.pbool false) ∧
      (∃ q : ℚ, dictGet failRec.extra_fields "duration_ms"
          = some (PyVal.prat q) ∧ 0 ≤ q) ∧
      failRec.exc = some ⟨"ValueError", "boom", "tb"⟩ ∧
      (withPerformanceLogger "agg" [("dataset", PyVal.pstr "d1")] 0 1
          (Except.error ⟨"ValueError", "boom", "tb"⟩ : Except ExcInfo Nat)).2
        = Except.error ⟨"ValueError", "boom", "tb"⟩ ∧
      (withPerformanceLogger "agg" [("dataset", PyVal.pstr "d1")] 0 1
          (Except.error ⟨"ValueError", "boom", "tb"⟩ : Except ExcInfo Nat)).1
        = ({ level := "info", msg := "Starting: " ++ "agg",
             extra_fields := [("dataset", PyVal.pstr "d1")], exc := none }
            : LogCall) :: [failRec]) :=
  ⟨by norm_num,
   performance_scope_failure_spec Nat "agg" [("dataset", PyVal.pstr "d1")]
     0 1 ⟨"ValueError", "boom", "tb"⟩ (by norm_num)⟩

/-! ## Formatter record facts -/

/-- C8: for every log call — any level, message, location, exception info and
extra fields — the formatter's output is a single structured object whose
keys are pairwise distinct (so `json.dumps` of it is one well-formed JSON
object per call) and which contains at minimum the `timestamp`, `level`,
`logger` and `message` fields. -/
theorem json_formatter_record_spec (now : String) (rid : Option String)
    (rec : LogRecord) :
    (dictKeys (JSONFormatter.format now rid rec)).Nodup ∧
    "timestamp" ∈ dictKeys (JSONFormatter.format now rid rec) ∧
    "level" ∈ dictKeys (JSONFormatter.format now rid rec) ∧
    "logger" ∈ dictKeys (JSONFormatter.format now rid rec) ∧
    "message" ∈ dictKeys (JSONFormatter.format now rid rec) := by
  obtain ⟨lv, nm, ms, md, fn, ln, exci, ef⟩ := rec
  cases hr : strTruthy rid <;> cases exci <;> cases ef <;>
    simp only [JSONFormatter.format, hr, Bool.false_eq_true, if_false,
      if_true, ite_false, ite_true] <;>
    refine ⟨?_, ?_, ?_, ?_, ?_⟩ <;>
    repeat
      first
      | apply nodup_dictKeys_dictUpdate
      | apply nodup_dictKeys_dictSet
      | apply mem_dictKeys_dictUpdate_left
      | apply mem_dictKeys_dictSet
      | simp [dictKeys]

/-- C7 counterexample: the correlation contextvar is set — to the empty
string — yet the formatted record carries no `request_id` field, because the
formatter guards on Python truthiness (`if request_id:`), not on the id being
set. -/
theorem request_id_empty_counterexample :
    (some "" : Option String).isSome = true ∧
    dictGet
      (JSONFormatter.format "2024-01-01T00:00:00" (some "")
        { levelname := "INFO", name := "geo-analytics-api", message := "m"
          module := "mod", funcName := "f", lineno := 1, exc_info := none
          extra_fields := none })
      "request_id" = none :=
  ⟨rfl, rfl⟩

/-- C7 (amended): if a NON-EMPTY correlation id is set in the context when the
record is formatted, and the call's extra fields do not themselves bind a
`request_id` key, the emitted record contains `request_id` equal to that id;
if the correlation id is unset, the field is absent (under the same
extra-fields proviso). -/
theorem request_id_in_record_spec (now : String) (rid : String)
    (rec : LogRecord) (hrid : rid ≠ "")
    (hef : "request_id" ∉ dictKeys (rec.extra_fields.getD [])) :
    dictGet (JSONFormatter.format now (some rid) rec) "request_id"
        = some (PyVal.pstr rid) ∧
    dictGet (JSONFormatter.format now none rec) "request_id" = none := by
  obtain ⟨lv, nm, ms, md, fn, ln, exci, ef⟩ := rec
  have hst : strTruthy (some rid) = true := by simp [strTruthy, hrid]
  have hne : ("request_id" : String) ≠ "exception" := by simp
  constructor
  · cases exci <;> cases ef <;>
      simp only [JSONFormatter.format, hst, if_true, ite_true,
        Option.getD_some, Option.getD_none]
    · exact dictGet_dictSet_self _ _ _
    · rename_i ef'
      have hef2 : "request_id" ∉ dictKeys ef' := by simpa using hef
      rw [dictGet_dictUpdate_not_mem _ _ _ hef2]
      exact dictGet_dictSet_self _ _ _
    · rw [dictGet_dictSet_ne _ _ _ _ hne]
      exact dictGet_dictSet_self _ _ _
    · rename_i e ef'
      have hef2 : "request_id" ∉ dictKeys ef' := by simpa using hef
      rw [dictGet_dictUpdate_not_mem _ _ _ hef2,
        dictGet_dictSet_ne _ _ _ _ hne]
      exact dictGet_dictSet_self _ _ _
  · cases exci <;> cases ef <;>
      simp only [JSONFormatter.format, strTruthy, Bool.false_eq_true,
        if_false, ite_false]
    · rfl
    · rename_i ef'
      have hef2 : "request_id" ∉ dictKeys ef' := by simpa using hef
      rw [dictGet_dictUpdate_not_mem _ _ _ hef2]
      rfl
    · rw [dictGet_dictSet_ne _ _ _ _ hne]
      rfl
    · rename_i e ef'
      have hef2 : "request_id" ∉ dictKeys ef' := by simpa using hef
      rw [dictGet_dictUpdate_not_mem _ _ _ hef2,
        dictGet_dictSet_ne _ _ _ _ hne]
      rfl

/-- Witness for the amended C7 at a concrete non-empty id and a record with
no extra fields. -/
theorem request_id_in_record_spec_witness :
    (("req-42" : String) ≠ "" ∧
     "request_id" ∉ dictKeys
       (({ levelname := "INFO", name := "geo-analytics-api", message := "m"
           module := "mod", funcName := "f", lineno := 1, exc_info := none
           extra_fields := none } : LogRecord).extra_fields.getD [])) ∧
    (dictGet
        (JSONFormatter.format "2024-01-01T00:00:00" (some "req-42")
          { levelname := "INFO", name := "geo-analytics-api", message := "m"
            module := "mod", funcName := "f", lineno := 1, exc_info := none
            extra_fields := none })
        "request_id" = some (PyVal.pstr "req-42") ∧
     dictGet
        (JSONFormatter.format "2024-01-01T00:00:00" none
          { levelname := "INFO", name := "geo-analytics-api", message := "m"
            module := "mod", funcName := "f", lineno := 1, exc_info := none
            extra_fields := none })
        "request_id" = none) :=
  ⟨⟨by decide, by simp [dictKeys]⟩,
   request_id_in_record_spec "2024-01-01T00:00:00" "req-42"
     { levelname := "INFO", name := "geo-analytics-api", message := "m"
       module := "mod", funcName := "f", lineno := 1, exc_info := none
       extra_fields := none }
     (by decide) (by simp [dictKeys])⟩
